import Mathlib

/-!
Verification of the vnstock-service response-normalization layer and the
endpoint-handler error mapping, as a shallow embedding of the Python source
(src/controllers/common.py, src/controllers/gold.py, src/controllers/crypto.py,
src/controllers/market.py, src/api_server.py, src/api_server_new.py).

Python runtime values that can reach `safe_convert_to_records` are modelled by
the inductive type `PyVal`.  Finite floating-point magnitudes are modelled by
rationals; the special values NaN, +Infinity and -Infinity are explicit
constructors, which is all the code inspects (`np.isnan`, `np.isinf`,
`pd.isna`).  Numpy scalar wrappers (`np.floating`, `np.integer`) that are not
also Python builtins are distinct constructors, since the code dispatches on
`isinstance`.  Datetime-like values carry their `isoformat()` rendering as a
string; `pd.NaT` (which is an instance of `datetime` but is missing) and
`pd.NA` are separate constructors.

Two embeddings of the Normalizer are given.  `safe_convert_to_records` is the
total one: it evaluates every `pd.isna` check with the scalar `pd_isna` and is
faithful on inputs whose series values and table cells are scalars — the scope
of the claims about emitted records.  `safe_convert_to_records_checked` also
models that on a container value the `if pd.isna(...)` checks themselves can
raise (the truth value of a multi-element boolean array is ambiguous), as an
Except computation in which the first raising cell aborts the call.
-/

namespace Vnstock

/-- Model of a Python float value: a finite magnitude (as a rational), NaN,
positive infinity or negative infinity. -/
inductive PyFloat where
  | finite (q : ℚ)
  | nan
  | inf
  | negInf
deriving DecidableEq, Repr

/-- The np.isnan predicate on a float value. -/
def PyFloat.isNaN : PyFloat → Bool
  | .nan => true
  | _ => false

/-- The np.isinf predicate on a float value (true for both infinities). -/
def PyFloat.isInf : PyFloat → Bool
  | .inf => true
  | .negInf => true
  | _ => false

/-- Column labels of a pandas DataFrame: either a flat index of string names,
or a MultiIndex whose entries are lists of level strings (the code applies
`str` to each level; levels are modelled as already rendered strings). -/
inductive Columns where
  | flat (names : List String)
  | multi (levels : List (List String))
deriving DecidableEq, Repr

/-- Model of a Python runtime value as seen by `safe_convert_to_records`:
the scalar shapes, plus `list`, `dict`, pandas `Series` (a sequence of
index/value pairs in iteration order) and pandas `DataFrame` (column labels
plus rows; each row lists its cells in column order). -/
inductive PyVal where
  | none
  | bool (b : Bool)
  | int (n : ℤ)
  | float (f : PyFloat)
  | npFloat (f : PyFloat)
  | npInt (n : ℤ)
  | str (s : String)
  | datetime (iso : String)
  | natT
  | pdNA
  | list (xs : List PyVal)
  | dict (kvs : List (String × PyVal))
  | series (entries : List (PyVal × PyVal))
  | dataframe (cols : Columns) (rows : List (List PyVal))
deriving Repr

/-- The pd.isna predicate on a scalar value: true for None, float/numpy-float NaN, NaT and
pd.NA; false for every other scalar (including the infinities).  This is the
truth value of the check `if pd.isna(v)` only for scalar arguments; on a
container the check itself can raise, which is modelled separately by
`pd_isna_truth` and used by the fallible embedding
`safe_convert_to_records_checked`. -/
def pd_isna : PyVal → Bool
  | .none => true
  | .float f => f.isNaN
  | .npFloat f => f.isNaN
  | .natT => true
  | .pdNA => true
  | _ => false

/-- Python str() rendering used for series index keys.  Only the scalar cases
matter for the claims; containers get a fixed placeholder. -/
def pyStr : PyVal → String
  | .none => "None"
  | .bool b => if b then "True" else "False"
  | .int n => toString n
  | .float f | .npFloat f =>
      match f with
      | .finite q => toString q
      | .nan => "nan"
      | .inf => "inf"
      | .negInf => "-inf"
  | .npInt n => toString n
  | .str s => s
  | .datetime iso => iso
  | .natT => "NaT"
  | .pdNA => "<NA>"
  | .list _ => "[...]"
  | .dict _ => "\x7b...\x7d"
  | .series _ => "<Series>"
  | .dataframe _ _ => "<DataFrame>"

/-- Cleaning applied to one series value in the Series branch of
`safe_convert_to_records`: `if pd.isna(val): val = None
elif isinstance(val, (np.floating, np.integer)): val = None if np.isnan(val)
else val.item()`.  The `.item()` call narrows a numpy scalar to the plain
Python float or int. -/
def seriesClean (val : PyVal) : PyVal :=
  if pd_isna val then .none
  else match val with
    | .npFloat f => if f.isNaN then .none else .float f
    | .npInt n => .int n
    | v => v

/-- One emitted record of the Series branch:
`{"index": str(idx), "value": val}` after cleaning. -/
def seriesRecord (e : PyVal × PyVal) : PyVal :=
  .dict [("index", .str (pyStr e.1)), ("value", seriesClean e.2)]

/-- Flattening of one MultiIndex column label:
`'_'.join(map(str, col)).strip('_')` — join all levels with an underscore,
then strip leading and trailing underscore characters. -/
def flattenCol (levels : List String) : String :=
  let joined := String.intercalate "_" levels
  String.mk (((joined.data.dropWhile (· = '_')).reverse.dropWhile (· = '_')).reverse)

/-- Number of columns of a DataFrame value. -/
def colCount : Columns → Nat
  | .flat names => names.length
  | .multi levels => levels.length

/-- The pandas df.empty flag: true when the frame has no rows or no columns. -/
def dfIsEmpty (cols : Columns) (rows : List (List PyVal)) : Bool :=
  rows.isEmpty || colCount cols = 0

/-- The flat column names used by `to_dict(orient="records")`: MultiIndex
labels are first flattened with `flattenCol`. -/
def flatNames : Columns → List String
  | .flat names => names
  | .multi levels => levels.map flattenCol

/-- Insertion into a Python dict: an existing key keeps its position and gets
the new value; a new key is appended. -/
def insertPair (kvs : List (String × PyVal)) (k : String) (v : PyVal) :
    List (String × PyVal) :=
  if kvs.any (fun p => p.1 = k) then
    kvs.map (fun p => if p.1 = k then (k, v) else p)
  else kvs ++ [(k, v)]

/-- Building a Python dict from a key/value sequence (later duplicates of a
key overwrite the earlier value). -/
def mkDict (pairs : List (String × PyVal)) : List (String × PyVal) :=
  pairs.foldl (fun acc p => insertPair acc p.1 p.2) []

/-- Cleaning applied to one cell of a DataFrame record, in the exact branch
order of the source: None is kept; a Python float that is NaN or infinite
becomes None; a numpy float that is NaN or infinite becomes None and is
otherwise narrowed with float(); a numpy integer is narrowed with int(); a
datetime/Timestamp is rendered with isoformat() when defined and becomes None
when it is NaT; any other value that pd.isna recognises becomes None; all
remaining values pass through unchanged. -/
def cleanCell (value : PyVal) : PyVal :=
  match value with
  | .none => .none
  | .float f => if f.isNaN || f.isInf then .none else .float f
  | .npFloat f => if f.isNaN || f.isInf then .none else .float f
  | .npInt n => .int n
  | .datetime iso => .str iso
  | .natT => .none
  | v => if pd_isna v then .none else v

/-- One DataFrame record: the row zipped with the (flattened) column names
into a dict, then every value cleaned with `cleanCell`. -/
def dfRecord (names : List String) (row : List PyVal) : PyVal :=
  .dict ((mkDict (names.zip row)).map (fun p => (p.1, cleanCell p.2)))

/-- The `default_value = [] if default_value is None` substitution at the top
of `safe_convert_to_records`. -/
def effectiveDefault (default_value : PyVal) : PyVal :=
  match default_value with
  | .none => .list []
  | d => d

/-- Shapes the dispatch of `safe_convert_to_records` recognises: None,
Series, DataFrame, dict and list.  Every other value reaches the final
`return default_value`. -/
def recognizedShape : PyVal → Bool
  | .none => true
  | .series _ => true
  | .dataframe _ _ => true
  | .dict _ => true
  | .list _ => true
  | _ => false

/-- Shallow embedding of `safe_convert_to_records` from
src/controllers/common.py.  It is a total computable function of its two
arguments: every branch of the Python source is translated, and every
unrecognised shape falls through to the default, so the embedded function
terminates on every input, raises nothing and is pure by construction. -/
def safe_convert_to_records (df : PyVal) (default_value : PyVal) : PyVal :=
  let dv := effectiveDefault default_value
  match df with
  | .none => dv
  | .series entries => .list (entries.map seriesRecord)
  | .dataframe cols rows =>
      if dfIsEmpty cols rows then dv
      else .list (rows.map (dfRecord (flatNames cols)))
  | .dict kvs => .list [.dict kvs]
  | .list xs => .list xs
  | _ => dv

/-- Outcome of evaluating `pd.isna(v)` in a boolean context (`if pd.isna(v)`),
container values included.  On a list, pd.isna returns an elementwise boolean
ndarray: its truth value raises ValueError for length at least 2, is the
truth value of the single element for length 1, and is False for the empty
array under the legacy numpy rule.  A nested pandas Series or DataFrame has
no truth value at all.  On every scalar (and on a dict, which pandas wraps
as a zero-dimensional object array that is not missing) the check is the
scalar `pd_isna`. -/
def pd_isna_truth : PyVal → Except String Bool
  | .list xs =>
      if 2 ≤ xs.length then
        .error "The truth value of an array with more than one element is ambiguous"
      else
        match xs with
        | [] => .ok false
        | x :: _ => .ok (pd_isna x)
  | .series _ => .error "The truth value of a Series is ambiguous"
  | .dataframe _ _ => .error "The truth value of a DataFrame is ambiguous"
  | v => .ok (pd_isna v)

/-- Fallible embedding of the Series-branch cleaning: the `if pd.isna(val)`
check itself can raise when the value is a container (common.py line 33);
when it does not, the cleaning is `seriesClean`. -/
def seriesCleanE (val : PyVal) : Except String PyVal :=
  (pd_isna_truth val).map (fun b =>
    if b then .none
    else match val with
      | .npFloat f => if f.isNaN then .none else .float f
      | .npInt n => .int n
      | v => v)

/-- Fallible embedding of one emitted Series record. -/
def seriesRecordE (e : PyVal × PyVal) : Except String PyVal :=
  (seriesCleanE e.2).map (fun v =>
    PyVal.dict [("index", .str (pyStr e.1)), ("value", v)])

/-- Fallible embedding of the DataFrame-branch cell cleaning: the final
`elif pd.isna(value)` check (common.py line 74) can raise when the value is
a container; the earlier branches never consult pd.isna. -/
def cleanCellE (value : PyVal) : Except String PyVal :=
  match value with
  | .none => .ok .none
  | .float f => .ok (if f.isNaN || f.isInf then .none else .float f)
  | .npFloat f => .ok (if f.isNaN || f.isInf then .none else .float f)
  | .npInt n => .ok (.int n)
  | .datetime iso => .ok (.str iso)
  | .natT => .ok .none
  | v => (pd_isna_truth v).map (fun b => if b then .none else v)

/-- Monadic map over a list in the Except monad, mirroring a Python loop:
the first raised exception aborts the whole computation. -/
def mapE {α β : Type} (f : α → Except String β) : List α → Except String (List β)
  | [] => .ok []
  | a :: as =>
      match f a with
      | .error e => .error e
      | .ok b =>
          match mapE f as with
          | .error e => .error e
          | .ok bs => .ok (b :: bs)

/-- Fallible embedding of one DataFrame record. -/
def dfRecordE (names : List String) (row : List PyVal) : Except String PyVal :=
  (mapE (fun p => (cleanCellE p.2).map (fun v => (p.1, v)))
      (mkDict (names.zip row))).map PyVal.dict

/-- Whether a value is one of the scalar shapes (not a list, dict, series
or dataframe). -/
def isScalarVal : PyVal → Bool
  | .list _ => false
  | .dict _ => false
  | .series _ => false
  | .dataframe _ _ => false
  | _ => true

/-- Fallible embedding of `safe_convert_to_records`: identical to the total
embedding except that the `if pd.isna(...)` checks on series values and on
DataFrame cells are modelled by `pd_isna_truth` and can raise, exactly as at
common.py lines 33 and 74; the first raising cell aborts the call with that
exception. -/
def safe_convert_to_records_checked (df : PyVal) (default_value : PyVal) :
    Except String PyVal :=
  let dv := effectiveDefault default_value
  match df with
  | .none => .ok dv
  | .series entries => (mapE seriesRecordE entries).map PyVal.list
  | .dataframe cols rows =>
      if dfIsEmpty cols rows then .ok dv
      else (mapE (dfRecordE (flatNames cols)) rows).map PyVal.list
  | .dict kvs => .ok (.list [.dict kvs])
  | .list xs => .ok (.list xs)
  | _ => .ok dv


/-- Outcome of the single upstream accessor call made by an endpoint handler:
a returned value, a raised ValueError with its message, or any other raised
exception with its message. -/
inductive UpstreamResult where
  | ok (v : PyVal)
  | valueError (msg : String)
  | otherError (msg : String)
deriving Repr

/-- What a handler body produces: a successful body, or a raised
HTTPException carrying a status and a detail message. -/
inductive HandlerResponse where
  | success (body : PyVal)
  | httpError (status_code : Nat) (detail : String)
deriving Repr

/-- Embedding of `get_sjc_gold_price` (src/controllers/gold.py): the result
of `sjc_gold_price(...)` is normalized; a None result short-circuits to [];
`except ValueError` raises HTTPException 400 with the message, and
`except Exception` raises HTTPException 500 with the message. -/
def get_sjc_gold_price (r : UpstreamResult) : HandlerResponse :=
  match r with
  | .ok PyVal.none => .success (.list [])
  | .ok v => .success (safe_convert_to_records v .none)
  | .valueError m => .httpError 400 m
  | .otherError m => .httpError 500 m

/-- Embedding of `msn_search_symbol` (src/controllers/crypto.py): the result
of `search_symbol_id(...)` is normalized; the only handler is
`except Exception`, which raises HTTPException 500 with the message — a
ValueError is an Exception, so it is also mapped to 500. -/
def msn_search_symbol (r : UpstreamResult) : HandlerResponse :=
  match r with
  | .ok v => .success (safe_convert_to_records v .none)
  | .valueError m => .httpError 500 m
  | .otherError m => .httpError 500 m

/-- Embedding of `get_market_indices` (src/controllers/market.py): the
result of `get_all_indices()` is normalized; the only handler is
`except Exception`, which raises HTTPException 500 with the message. -/
def get_market_indices (r : UpstreamResult) : HandlerResponse :=
  match r with
  | .ok v => .success (safe_convert_to_records v .none)
  | .valueError m => .httpError 500 m
  | .otherError m => .httpError 500 m

/-- A starlette JSONResponse: a status and a JSON body. -/
structure JSONResponse where
  status_code : Nat
  content : PyVal
deriving Repr

/-- The `ErrorResponse` pydantic model of src/api_server.py after
`.model_dump()`: a mapping with exactly the fields error, detail and
timestamp. -/
def ErrorResponse_dump (error detail timestamp : String) : PyVal :=
  .dict [("error", .str error), ("detail", .str detail),
         ("timestamp", .str timestamp)]

/-- Embedding of `http_exception_handler` (src/api_server.py): an
HTTPException with status s and detail d is rendered as status s with body
`ErrorResponse(error="HTTP s", detail=d, timestamp=now.isoformat())`.  The
current time is threaded as the already-rendered isoformat string. -/
def http_exception_handler (status_code : Nat) (detail : String)
    (now_iso : String) : JSONResponse :=
  { status_code := status_code,
    content := ErrorResponse_dump ("HTTP " ++ toString status_code) detail now_iso }

/-- Embedding of `general_exception_handler` (src/api_server.py and
src/api_server_new.py): any unhandled exception is rendered as status 500
with body `ErrorResponse(error="Internal Server Error", detail=str(exc),
timestamp=now.isoformat())`. -/
def general_exception_handler (exc_msg : String) (now_iso : String) :
    JSONResponse :=
  { status_code := 500,
    content := ErrorResponse_dump "Internal Server Error" exc_msg now_iso }

/-- FastAPI dispatch for a handler outcome in src/api_server.py: a
successful body becomes a 200 response, and a raised HTTPException is
rendered by the registered `http_exception_handler`. -/
def renderResponse (r : HandlerResponse) (now_iso : String) : JSONResponse :=
  match r with
  | .success body => { status_code := 200, content := body }
  | .httpError s d => http_exception_handler s d now_iso

/-- Python strings for the symbol-parameter analysis, modelled as sequences
of character code points. -/
abbrev PyStr := List Nat

/-- Python str.upper() on one code point, restricted to the ASCII letters
that make up ticker symbols. -/
def asciiUpper (c : Nat) : Nat := if 97 ≤ c ∧ c ≤ 122 then c - 32 else c

/-- Python str.upper() on a string. -/
def pyUpper (s : PyStr) : PyStr := s.map asciiUpper

/-- The ASCII whitespace code points stripped by Python str.strip(). -/
def isPySpace (c : Nat) : Bool :=
  c = 32 || c = 9 || c = 10 || c = 11 || c = 12 || c = 13

/-- Python str.strip(): whitespace removed from both ends. -/
def pyStrip (s : PyStr) : PyStr :=
  ((s.dropWhile isPySpace).reverse.dropWhile isPySpace).reverse

/-- Python str.split(sep) for a one-character separator: the empty string
splits to one empty piece, and each separator occurrence starts a new
piece. -/
def pySplit (sep : Nat) : PyStr → List PyStr
  | [] => [[]]
  | c :: cs =>
      if c = sep then [] :: pySplit sep cs
      else
        match pySplit sep cs with
        | [] => [[c]]
        | g :: gs => (c :: g) :: gs

/-- The symbol argument `get_quote_history` (src/api_server.py line 219)
passes to the upstream accessor: `symbol.upper()`. -/
def get_quote_history_symbol_arg (symbol : PyStr) : PyStr := pyUpper symbol

/-- The symbols list `get_price_board` (src/api_server.py line 663) passes
to the upstream accessor:
`[s.strip().upper() for s in symbols.split(",") if s.strip()]`
(44 is the comma code point). -/
def get_price_board_symbols_list (symbols : PyStr) : List PyStr :=
  (pySplit 44 symbols).filterMap (fun s =>
    if (pyStrip s).isEmpty then Option.none
    else Option.some (pyUpper (pyStrip s)))

/-- Two strings differ only in letter case: they have the same length and
corresponding code points agree after uppercasing. -/
def caseEquiv (s t : PyStr) : Prop :=
  List.Forall₂ (fun c d => asciiUpper c = asciiUpper d) s t

/-- A DataFrame object as the caller of `safe_convert_to_records` owns it:
its column labels and its cell values. -/
structure DFObj where
  cols : Columns
  rows : List (List PyVal)
deriving Repr

/-- What the local name `df` refers to inside the DataFrame branch: still
the object of the caller, or a fresh copy produced by `df.copy()`. -/
inductive DFBinding where
  | ref
  | own (d : DFObj)
deriving Repr

/-- Reading through the local binding. -/
def derefDF (caller : DFObj) : DFBinding → DFObj
  | .ref => caller
  | .own d => d

/-- Copying, `df = df.copy()`: the local name is rebound to a fresh object with the
same contents; later writes through it cannot reach the caller. -/
def copyDF (caller : DFObj) (b : DFBinding) : DFBinding := .own (derefDF caller b)

/-- Assignment `df.columns = ...`: a write through the local binding.  If the binding
still aliases the object of the caller then the caller is mutated; if it holds a copy
only the copy changes. -/
def set_columns (caller : DFObj) (b : DFBinding) (newCols : Columns) :
    DFObj × DFBinding :=
  match b with
  | .ref => ({ caller with cols := newCols }, .ref)
  | .own d => (caller, .own { d with cols := newCols })

/-- The isinstance check for MultiIndex column labels. -/
def isMultiIndexCols : Columns → Bool
  | .multi _ => true
  | .flat _ => false

/-- State-passing embedding of the DataFrame branch of
`safe_convert_to_records`, threading the DataFrame object of the caller so that
writes through the local `df` name are visible: the branch checks `df.empty`,
then, for MultiIndex columns, executes `df = df.copy()` followed by
`df.columns = [flattened...]`, then converts to records.  Returns the value
of the branch together with the object of the caller after the call. -/
def dataframe_branch_state (caller : DFObj) (default_value : PyVal) :
    PyVal × DFObj :=
  let b : DFBinding := .ref
  if dfIsEmpty (derefDF caller b).cols (derefDF caller b).rows then
    (effectiveDefault default_value, caller)
  else
    let st :=
      if isMultiIndexCols (derefDF caller b).cols then
        let b := copyDF caller b
        set_columns caller b (.flat (flatNames (derefDF caller b).cols))
      else (caller, b)
    let df := derefDF st.1 st.2
    (.list (df.rows.map (dfRecord (flatNames df.cols))), st.1)

/-- A value that is a floating-point NaN (Python float or numpy float). -/
def isNaNVal : PyVal → Bool
  | .float f => f.isNaN
  | .npFloat f => f.isNaN
  | _ => false

/-- A value that is a floating-point NaN or a positive/negative Infinity. -/
def isNaNOrInfVal : PyVal → Bool
  | .float f => f.isNaN || f.isInf
  | .npFloat f => f.isNaN || f.isInf
  | _ => false

/-- The keys of a record value, in order; non-dict values have no keys. -/
def recordKeys : PyVal → List String
  | .dict kvs => kvs.map Prod.fst
  | _ => []

/-- Whether a value is a Python list. -/
def isListVal : PyVal → Bool
  | .list _ => true
  | _ => false

/-- Modelled from the claim wording for comparison with `flattenCol`: join
the non-empty levels with an underscore, dropping empty levels. -/
def flattenColSpec (levels : List String) : String :=
  String.intercalate "_" (levels.filter (fun l => l ≠ ""))

/-! Helper lemmas about the cell-cleaning functions. -/

/-- Every cell emerging from the DataFrame-branch cleaning is free of NaN and
of both infinities. -/
theorem cleanCell_no_nan_inf (v : PyVal) : isNaNOrInfVal (cleanCell v) = false := by
  cases v <;> simp [cleanCell, isNaNOrInfVal, pd_isna] <;> split_ifs <;>
    simp_all [isNaNOrInfVal]

/-- Every value emerging from the Series-branch cleaning is free of NaN. -/
theorem seriesClean_no_nan (v : PyVal) : isNaNVal (seriesClean v) = false := by
  cases v <;> simp [seriesClean, pd_isna, isNaNVal] <;> split_ifs <;>
    simp_all [isNaNVal]

/-- Claim C1, amended: in the tabular branch no emitted field value is a
floating-point NaN or a positive/negative Infinity; in the Series branch no
emitted field value is NaN (Infinity, however, passes through there — see the
counterexample). -/
theorem c1_no_nan_inf :
    (∀ (cols : Columns) (rows : List (List PyVal)) (d : PyVal)
        (recs : List PyVal),
        dfIsEmpty cols rows = false →
        safe_convert_to_records (.dataframe cols rows) d = .list recs →
        ∀ r ∈ recs, ∀ kvs : List (String × PyVal), r = .dict kvs →
          ∀ kv ∈ kvs, isNaNOrInfVal kv.2 = false)
    ∧ (∀ (entries : List (PyVal × PyVal)) (d : PyVal) (recs : List PyVal),
        safe_convert_to_records (.series entries) d = .list recs →
        ∀ r ∈ recs, ∀ kvs : List (String × PyVal), r = .dict kvs →
          ∀ kv ∈ kvs, isNaNVal kv.2 = false) := by
  constructor
  · intro cols rows d recs hne heq r hr kvs hrk kv hkv
    simp only [safe_convert_to_records, hne, Bool.false_eq_true, if_false,
      PyVal.list.injEq] at heq
    subst heq
    rcases List.mem_map.1 hr with ⟨row, hrow, rfl⟩
    simp only [dfRecord, PyVal.dict.injEq] at hrk
    subst hrk
    rcases List.mem_map.1 hkv with ⟨p, hp, rfl⟩
    exact cleanCell_no_nan_inf p.2
  · intro entries d recs heq r hr kvs hrk kv hkv
    simp only [safe_convert_to_records, PyVal.list.injEq] at heq
    subst heq
    rcases List.mem_map.1 hr with ⟨e, he, rfl⟩
    simp only [seriesRecord, PyVal.dict.injEq] at hrk
    subst hrk
    simp only [List.mem_cons, List.mem_singleton] at hkv
    rcases hkv with rfl | rfl | h
    · rfl
    · exact seriesClean_no_nan e.2
    · exact absurd h (List.not_mem_nil kv)

/-- Counterexample to claim C1 as stated: a Series entry whose value is
positive Infinity is emitted unchanged — the emitted field value is an
Infinity, not null. -/
theorem c1_counterexample :
    safe_convert_to_records (.series [(.int 0, .float .inf)]) .none
      = .list [.dict [("index", .str "0"), ("value", .float .inf)]]
    ∧ isNaNOrInfVal (.float .inf) = true :=
  ⟨rfl, rfl⟩

/-- Witness for the amended claim C1 at a concrete one-cell table holding a
NaN, which is emitted as null. -/
theorem c1_witness :
    dfIsEmpty (.flat ["a"]) [[.float .nan]] = false ∧
      isNaNOrInfVal (("a", PyVal.none) : String × PyVal).2 = false := by
  refine ⟨rfl, ?_⟩
  exact c1_no_nan_inf.1 (.flat ["a"]) [[.float .nan]] .none [.dict [("a", .none)]]
    rfl rfl (.dict [("a", .none)]) (List.mem_singleton.2 rfl)
    [("a", .none)] rfl ("a", .none) (List.mem_singleton.2 rfl)

/-! Helper lemmas for the fallible embedding. -/

/-- Mapping a pointwise-successful function over a list succeeds with the
pointwise results. -/
theorem mapE_ok {α β : Type} {f : α → Except String β} {g : α → β} :
    ∀ {l : List α}, (∀ a ∈ l, f a = Except.ok (g a)) →
      mapE f l = Except.ok (l.map g) := by
  intro l
  induction l with
  | nil => intro h; rfl
  | cons a as ih =>
    intro h
    simp only [mapE, h a (List.mem_cons_self a as),
      ih fun b hb => h b (List.mem_cons_of_mem a hb), List.map_cons]

/-- A pair in the result of a dict insertion is either from the original
dict or carries the inserted value. -/
theorem insertPair_mem_or {acc : List (String × PyVal)} {k : String}
    {v : PyVal} {p : String × PyVal} (h : p ∈ insertPair acc k v) :
    p ∈ acc ∨ p.2 = v := by
  unfold insertPair at h
  split_ifs at h
  · rcases List.mem_map.1 h with ⟨r, hr, hrp⟩
    by_cases hk : r.1 = k
    · right
      rw [← hrp, if_pos hk]
    · left
      rw [← hrp, if_neg hk]
      exact hr
  · rcases List.mem_append.1 h with h1 | h1
    · exact Or.inl h1
    · rcases List.mem_singleton.1 h1 with rfl
      exact Or.inr rfl

/-- Every value in a fold of dict insertions comes from the accumulator or
from one of the inserted pairs. -/
theorem foldl_insertPair_mem :
    ∀ (pairs acc : List (String × PyVal)) (p : String × PyVal),
      p ∈ List.foldl (fun a q => insertPair a q.1 q.2) acc pairs →
      p ∈ acc ∨ ∃ q ∈ pairs, p.2 = q.2 := by
  intro pairs
  induction pairs with
  | nil => intro acc p h; exact Or.inl h
  | cons q qs ih =>
    intro acc p h
    rw [List.foldl_cons] at h
    rcases ih (insertPair acc q.1 q.2) p h with h1 | h1
    · rcases insertPair_mem_or h1 with h2 | h2
      · exact Or.inl h2
      · exact Or.inr ⟨q, List.mem_cons_self q qs, h2⟩
    · rcases h1 with ⟨r, hr, hpr⟩
      exact Or.inr ⟨r, List.mem_cons_of_mem q hr, hpr⟩

/-- Every value in a built Python dict is the value of one of the input
pairs. -/
theorem mkDict_mem_snd {pairs : List (String × PyVal)} {p : String × PyVal}
    (h : p ∈ mkDict pairs) : ∃ q ∈ pairs, p.2 = q.2 := by
  unfold mkDict at h
  rcases foldl_insertPair_mem pairs [] p h with h1 | h1
  · exact absurd h1 (List.not_mem_nil p)
  · exact h1

/-- On scalar values the checked series cleaning never raises and agrees
with the total one. -/
theorem seriesCleanE_scalar {v : PyVal} (h : isScalarVal v = true) :
    seriesCleanE v = Except.ok (seriesClean v) := by
  cases v <;> first | rfl | simp_all [isScalarVal]

/-- On scalar values the checked cell cleaning never raises and agrees with
the total one. -/
theorem cleanCellE_scalar {v : PyVal} (h : isScalarVal v = true) :
    cleanCellE v = Except.ok (cleanCell v) := by
  cases v <;> first | rfl | simp_all [isScalarVal]

/-- Counterexample to claim C2 as stated: a Series holding a two-element
list makes the `if pd.isna(val)` check at common.py line 33 raise ValueError
(the truth value of a multi-element boolean array is ambiguous), so the
Normalizer does not terminate normally on every runtime shape. -/
theorem c2_counterexample :
    safe_convert_to_records_checked
        (.series [(.int 0, .list [.none, .none])]) .none
      = Except.error
          "The truth value of an array with more than one element is ambiguous" :=
  rfl

/-- Claim C2, amended: the Normalizer performs no I/O and is a pure function
of its input (both embeddings are total computable functions); every
unrecognised shape yields the caller-supplied default; and it terminates
normally without raising whenever every pd.isna truthiness check on a series
value or table cell succeeds — in particular on every scalar value — in
which case it returns exactly the value of the total embedding.  It can
raise on container cells (see the counterexample). -/
theorem c2_no_raise :
    (∀ (v d : PyVal), recognizedShape v = false →
        safe_convert_to_records_checked v d = Except.ok (effectiveDefault d))
    ∧ (∀ (entries : List (PyVal × PyVal)) (d : PyVal),
        (∀ e ∈ entries, seriesCleanE e.2 = Except.ok (seriesClean e.2)) →
        safe_convert_to_records_checked (.series entries) d
          = Except.ok (safe_convert_to_records (.series entries) d))
    ∧ (∀ (cols : Columns) (rows : List (List PyVal)) (d : PyVal),
        (∀ row ∈ rows, ∀ c ∈ row, cleanCellE c = Except.ok (cleanCell c)) →
        safe_convert_to_records_checked (.dataframe cols rows) d
          = Except.ok (safe_convert_to_records (.dataframe cols rows) d))
    ∧ (∀ (kvs : List (String × PyVal)) (d : PyVal),
        safe_convert_to_records_checked (.dict kvs) d
          = Except.ok (safe_convert_to_records (.dict kvs) d))
    ∧ (∀ (xs : List PyVal) (d : PyVal),
        safe_convert_to_records_checked (.list xs) d
          = Except.ok (safe_convert_to_records (.list xs) d))
    ∧ (∀ d : PyVal,
        safe_convert_to_records_checked .none d
          = Except.ok (safe_convert_to_records .none d))
    ∧ (∀ v : PyVal, isScalarVal v = true →
        seriesCleanE v = Except.ok (seriesClean v)
        ∧ cleanCellE v = Except.ok (cleanCell v)) := by
  refine ⟨?_, ?_, ?_, fun kvs d => rfl, fun xs d => rfl, fun d => rfl,
    fun v h => ⟨seriesCleanE_scalar h, cleanCellE_scalar h⟩⟩
  · intro v d h
    cases v <;> simp_all [recognizedShape, safe_convert_to_records_checked]
  · intro entries d h
    have hm : mapE seriesRecordE entries
        = Except.ok (entries.map seriesRecord) := by
      apply mapE_ok
      intro e he
      rw [seriesRecordE, h e he]
      rfl
    simp only [safe_convert_to_records_checked, safe_convert_to_records, hm]
    rfl
  · intro cols rows d h
    by_cases hne : dfIsEmpty cols rows = true
    · simp only [safe_convert_to_records_checked, safe_convert_to_records,
        hne, if_true]
    · simp only [Bool.not_eq_true] at hne
      have hm : mapE (dfRecordE (flatNames cols)) rows
          = Except.ok (rows.map (dfRecord (flatNames cols))) := by
        apply mapE_ok
        intro row hrow
        rw [dfRecordE]
        have hm2 : mapE (fun p => (cleanCellE p.2).map (fun v => (p.1, v)))
            (mkDict ((flatNames cols).zip row))
            = Except.ok ((mkDict ((flatNames cols).zip row)).map
                (fun p => (p.1, cleanCell p.2))) := by
          apply mapE_ok
          intro p hp
          rcases mkDict_mem_snd hp with ⟨q, hq, hpq⟩
          obtain ⟨k, c⟩ := q
          rw [hpq, h row hrow c (List.of_mem_zip hq).2]
          rfl
        rw [hm2]
        rfl
      simp only [safe_convert_to_records_checked, safe_convert_to_records,
        hne, Bool.false_eq_true, if_false, hm]
      rfl

/-- Witness for the amended claim C2 at a concrete scalar-valued series:
the checked embedding succeeds and agrees with the total one. -/
theorem c2_witness :
    safe_convert_to_records_checked (.series [(.int 0, .float .nan)]) .none
      = Except.ok
          (safe_convert_to_records (.series [(.int 0, .float .nan)]) .none) := by
  apply c2_no_raise.2.1
  intro e he
  rcases List.mem_singleton.1 he with rfl
  rfl

/-- Claim C3: a series input of N entries yields exactly N records, in the
iteration order of the series, each record having exactly the keys index and
value, where index is the str() rendering of the index key and value is the
entry value with NaN-to-null and numpy-to-plain narrowing applied. -/
theorem c3_series (entries : List (PyVal × PyVal)) (d : PyVal) :
    safe_convert_to_records (.series entries) d = .list (entries.map seriesRecord)
    ∧ (entries.map seriesRecord).length = entries.length
    ∧ (∀ i : Nat, (entries.map seriesRecord)[i]? = (entries[i]?).map seriesRecord)
    ∧ (∀ e : PyVal × PyVal, recordKeys (seriesRecord e) = ["index", "value"])
    ∧ (∀ e : PyVal × PyVal, seriesRecord e
        = .dict [("index", .str (pyStr e.1)), ("value", seriesClean e.2)])
    ∧ (∀ v : PyVal, pd_isna v = true → seriesClean v = PyVal.none)
    ∧ (∀ f : PyFloat, f.isNaN = false → seriesClean (.npFloat f) = .float f)
    ∧ (∀ n : ℤ, seriesClean (.npInt n) = .int n) := by
  refine ⟨rfl, List.length_map _ _, fun i => List.getElem?_map .., fun e => rfl,
    fun e => rfl, ?_, ?_, fun n => rfl⟩
  · intro v h
    simp [seriesClean, h]
  · intro f h
    simp [seriesClean, pd_isna, h]

/-- Witness for claim C3: the NaN-to-null and numpy-narrowing side conditions
evaluated at concrete values. -/
theorem c3_witness :
    pd_isna (.float .nan) = true ∧ seriesClean (.float .nan) = PyVal.none ∧
      PyFloat.isNaN (.finite 2) = false ∧
      seriesClean (.npFloat (.finite 2)) = .float (.finite 2) :=
  ⟨rfl, (c3_series [] .none).2.2.2.2.2.1 (.float .nan) rfl, rfl,
    (c3_series [] .none).2.2.2.2.2.2.1 (.finite 2) rfl⟩

/-- Counterexample to claim C4 as stated: with the three-level header
(price, empty, close) the code emits the key price__close (join all levels,
then strip only the ends), while joining the non-empty levels would give
price_close; the two flattening rules are not equivalent. -/
theorem c4_counterexample :
    safe_convert_to_records
        (.dataframe (.multi [["price", "", "close"]]) [[.int 1]]) .none
      = .list [.dict [("price__close", .int 1)]]
    ∧ flattenColSpec ["price", "", "close"] = "price_close"
    ∧ flattenCol ["price", "", "close"] ≠ flattenColSpec ["price", "", "close"] := by
  refine ⟨rfl, rfl, ?_⟩
  decide

/-- Claim C4, amended: every multi-level header is flattened — before any
record is emitted — by joining all levels with an underscore and stripping
leading and trailing underscore characters (so edge empty levels are dropped
but an interior empty level leaves a doubled underscore); the headers
(price, close) and (price, open) flatten to price_close and price_open, which
do not collide. -/
theorem c4_flatten :
    (∀ (mcols : List (List String)) (rows : List (List PyVal)) (d : PyVal),
        safe_convert_to_records (.dataframe (.multi mcols) rows) d
          = safe_convert_to_records
              (.dataframe (.flat (mcols.map flattenCol)) rows) d)
    ∧ flattenCol ["price", "close"] = "price_close"
    ∧ flattenCol ["price", "open"] = "price_open"
    ∧ ("price_close" : String) ≠ "price_open" := by
  refine ⟨?_, rfl, rfl, by decide⟩
  intro mcols rows d
  simp only [safe_convert_to_records, dfIsEmpty, colCount, flatNames]
  rcases rows with _ | ⟨r, rs⟩
  · rfl
  · rcases mcols with _ | ⟨c, cs⟩
    · rfl
    · simp

/-- Counterexample to claim C5 as stated: an explicitly-empty series input
returns the empty list even when a non-empty default was supplied — the
Series branch has no emptiness check, so the caller default is ignored
there. -/
theorem c5_counterexample :
    safe_convert_to_records (.series []) (.list [.dict [("a", .int 1)]]) = .list []
    ∧ (PyVal.list [] ≠ PyVal.list [.dict [("a", .int 1)]]) := by
  refine ⟨rfl, ?_⟩
  simp

/-- Claim C5, amended: a null input or an empty tabular input returns the
caller default (the empty list when no default was given); an empty series
input returns the empty list regardless of any supplied default. -/
theorem c5_empty_inputs :
    (∀ d : PyVal, safe_convert_to_records .none d = effectiveDefault d)
    ∧ (∀ (cols : Columns) (rows : List (List PyVal)) (d : PyVal),
        dfIsEmpty cols rows = true →
          safe_convert_to_records (.dataframe cols rows) d = effectiveDefault d)
    ∧ (∀ d : PyVal, safe_convert_to_records (.series []) d = .list [])
    ∧ effectiveDefault .none = .list [] := by
  refine ⟨fun d => rfl, ?_, fun d => rfl, rfl⟩
  intro cols rows d h
  simp [safe_convert_to_records, h]

/-- Witness for the amended claim C5 at a concrete empty table. -/
theorem c5_witness :
    dfIsEmpty (.flat ["a"]) [] = true ∧
      safe_convert_to_records (.dataframe (.flat ["a"]) []) (.str "d")
        = effectiveDefault (.str "d") :=
  ⟨rfl, c5_empty_inputs.2.1 (.flat ["a"]) [] (.str "d") rfl⟩

/-- Counterexample to claim C6 as stated: the msn_search_symbol handler maps
an upstream ValueError to HTTP 500, not 400 — it has no ValueError branch,
only a generic exception branch. -/
theorem c6_counterexample :
    msn_search_symbol (.valueError "invalid date range")
      = .httpError 500 "invalid date range"
    ∧ msn_search_symbol (.valueError "invalid date range")
        ≠ .httpError 400 "invalid date range" := by
  refine ⟨rfl, ?_⟩
  simp [msn_search_symbol]

/-- Claim C6, amended: handlers with an explicit ValueError branch (such as
get_sjc_gold_price) map a ValueError to HTTP 400 and any other exception to
HTTP 500, each carrying the failure message as the detail; handlers with only
a generic exception branch (such as msn_search_symbol and get_market_indices)
map every exception — ValueError included — to HTTP 500 with the message as
the detail. -/
theorem c6_exception_mapping (m : String) :
    get_sjc_gold_price (.valueError m) = .httpError 400 m
    ∧ get_sjc_gold_price (.otherError m) = .httpError 500 m
    ∧ msn_search_symbol (.valueError m) = .httpError 500 m
    ∧ msn_search_symbol (.otherError m) = .httpError 500 m
    ∧ get_market_indices (.valueError m) = .httpError 500 m
    ∧ get_market_indices (.otherError m) = .httpError 500 m :=
  ⟨rfl, rfl, rfl, rfl, rfl, rfl⟩

/-- Claim C7: a failure response rendered by the registered exception
handlers is the JSON envelope with exactly the fields error, detail and
timestamp; an HTTPException with status s gets error "HTTP s" and its detail,
an unhandled exception gets status 500 and error "Internal Server Error",
and the scenario — an upstream ValueError with message "invalid date range"
routed through get_sjc_gold_price — produces status 400, error "HTTP 400"
and detail "invalid date range". -/
theorem c7_envelope (s : Nat) (d ts : String) :
    http_exception_handler s d ts
      = { status_code := s,
          content := .dict [("error", .str ("HTTP " ++ toString s)),
                            ("detail", .str d), ("timestamp", .str ts)] }
    ∧ recordKeys (http_exception_handler s d ts).content
        = ["error", "detail", "timestamp"]
    ∧ (general_exception_handler d ts).status_code = 500
    ∧ recordKeys (general_exception_handler d ts).content
        = ["error", "detail", "timestamp"]
    ∧ renderResponse (get_sjc_gold_price (.valueError "invalid date range")) ts
        = { status_code := 400,
            content := .dict [("error", .str "HTTP 400"),
                              ("detail", .str "invalid date range"),
                              ("timestamp", .str ts)] } :=
  ⟨rfl, rfl, rfl, rfl, rfl⟩

/-- Claim C8: a list input passes through unchanged, hence normalizing any
output of the Normalizer that is a sequence again returns it unchanged
(idempotence on already-normalized sequences). -/
theorem c8_idempotent :
    (∀ (l : List PyVal) (d : PyVal), safe_convert_to_records (.list l) d = .list l)
    ∧ (∀ (x d e : PyVal), isListVal (safe_convert_to_records x d) = true →
        safe_convert_to_records (safe_convert_to_records x d) e
          = safe_convert_to_records x d) := by
  refine ⟨fun l d => rfl, ?_⟩
  intro x d e h
  cases hy : safe_convert_to_records x d <;> simp_all [isListVal]
  rfl

/-- Witness for claim C8: renormalizing the normalization of a concrete dict
input returns it unchanged. -/
theorem c8_witness :
    isListVal (safe_convert_to_records (.dict [("a", .int 1)]) .none) = true ∧
      safe_convert_to_records
          (safe_convert_to_records (.dict [("a", .int 1)]) .none) (.str "z")
        = safe_convert_to_records (.dict [("a", .int 1)]) .none :=
  ⟨rfl, c8_idempotent.2 (.dict [("a", .int 1)]) .none (.str "z") rfl⟩

/-! Helper lemmas for the case-insensitivity of symbol parameters. -/

/-- Characterisation of two code points with the same uppercase image. -/
theorem asciiUpper_cases {c d : Nat} (h : asciiUpper c = asciiUpper d) :
    c = d ∨ (c = d + 32 ∧ 97 ≤ c ∧ c ≤ 122) ∨ (d = c + 32 ∧ 97 ≤ d ∧ d ≤ 122) := by
  unfold asciiUpper at h
  split_ifs at h <;> omega

/-- Uppercasing a code point twice is the same as uppercasing it once. -/
theorem asciiUpper_idem (c : Nat) : asciiUpper (asciiUpper c) = asciiUpper c := by
  unfold asciiUpper
  split_ifs <;> omega

/-- Strings that differ only in letter case have the same uppercase image. -/
theorem pyUpper_congr {s t : PyStr} (h : caseEquiv s t) : pyUpper s = pyUpper t := by
  induction h with
  | nil => rfl
  | cons hR _ ih =>
    simp only [pyUpper, List.map_cons, List.cons.injEq]
    exact ⟨hR, ih⟩

/-- Uppercasing a string twice is the same as uppercasing it once. -/
theorem pyUpper_idem (s : PyStr) : pyUpper (pyUpper s) = pyUpper s := by
  simp only [pyUpper, List.map_map]
  exact List.map_congr_left fun a _ => asciiUpper_idem a

/-- Case-equivalent code points agree on being the comma separator. -/
theorem comma_congr {c d : Nat} (h : asciiUpper c = asciiUpper d) :
    c = 44 ↔ d = 44 := by
  have := asciiUpper_cases h
  omega

/-- Code points at and above 33 are not Python whitespace. -/
theorem isPySpace_false {c : Nat} (h : 33 ≤ c) : isPySpace c = false := by
  simp only [isPySpace, Bool.or_eq_false_iff, decide_eq_false_iff_not]
  omega

/-- Case-equivalent code points agree on being whitespace. -/
theorem isPySpace_congr {c d : Nat} (h : asciiUpper c = asciiUpper d) :
    isPySpace c = isPySpace d := by
  rcases asciiUpper_cases h with rfl | ⟨hc, h1, h2⟩ | ⟨hc, h1, h2⟩
  · rfl
  · rw [isPySpace_false (by omega), isPySpace_false (by omega)]
  · rw [isPySpace_false (by omega), isPySpace_false (by omega)]

/-- dropWhile preserves a pointwise relation when the predicate respects the
relation. -/
theorem dropWhile_forall₂ {R : Nat → Nat → Prop} {p : Nat → Bool}
    (hp : ∀ a b, R a b → p a = p b) :
    ∀ {s t : PyStr}, List.Forall₂ R s t →
      List.Forall₂ R (s.dropWhile p) (t.dropWhile p) := by
  intro s t h
  induction h with
  | nil => exact .nil
  | @cons a b as bs hR htl ih =>
    rw [List.dropWhile_cons, List.dropWhile_cons, ← hp a b hR]
    by_cases hpa : p a = true
    · simp only [hpa, if_true]
      exact ih
    · simp only [Bool.not_eq_true] at hpa
      simp only [hpa, Bool.false_eq_true, if_false]
      exact .cons hR htl

/-- Stripping whitespace preserves case equivalence. -/
theorem caseEquiv_strip {s t : PyStr} (h : caseEquiv s t) :
    caseEquiv (pyStrip s) (pyStrip t) := by
  unfold pyStrip
  have hp : ∀ a b : Nat, asciiUpper a = asciiUpper b → isPySpace a = isPySpace b :=
    fun a b => isPySpace_congr
  exact List.rel_reverse
    (dropWhile_forall₂ hp (List.rel_reverse (dropWhile_forall₂ hp h)))

/-- Case-equivalent strings agree on emptiness. -/
theorem caseEquiv_isEmpty {s t : PyStr} (h : caseEquiv s t) :
    s.isEmpty = t.isEmpty := by
  cases h with
  | nil => rfl
  | cons _ _ => rfl

/-- Splitting never produces the empty list of pieces. -/
theorem pySplit_ne_nil (sep : Nat) (s : PyStr) : pySplit sep s ≠ [] := by
  induction s with
  | nil => simp [pySplit]
  | cons c cs ih =>
    simp only [pySplit]
    split_ifs
    · simp
    · cases h : pySplit sep cs with
      | nil => simp
      | cons g gs => simp

/-- Splitting on the comma maps case-equivalent strings to piecewise
case-equivalent piece lists. -/
theorem pySplit_forall₂ {s t : PyStr} (h : caseEquiv s t) :
    List.Forall₂ caseEquiv (pySplit 44 s) (pySplit 44 t) := by
  induction h with
  | nil => exact .cons .nil .nil
  | @cons a b as bs hR htl ih =>
    have hc := comma_congr hR
    simp only [pySplit]
    by_cases ha : a = 44
    · have hb : b = 44 := hc.1 ha
      rw [if_pos ha, if_pos hb]
      exact .cons .nil ih
    · have hb : ¬b = 44 := fun hb => ha (hc.2 hb)
      rw [if_neg ha, if_neg hb]
      cases hsa : pySplit 44 as with
      | nil => exact absurd hsa (pySplit_ne_nil 44 as)
      | cons g gs =>
        cases hsb : pySplit 44 bs with
        | nil => exact absurd hsb (pySplit_ne_nil 44 bs)
        | cons g2 gs2 =>
          rw [hsa, hsb] at ih
          cases ih with
          | cons hg hgs => exact .cons (.cons hR hg) hgs

/-- The strip-filter-uppercase pipeline of get_price_board gives equal
results on piecewise case-equivalent piece lists. -/
theorem price_board_congr {ls ms : List PyStr}
    (h : List.Forall₂ caseEquiv ls ms) :
    ls.filterMap (fun s =>
        if (pyStrip s).isEmpty then Option.none
        else Option.some (pyUpper (pyStrip s)))
      = ms.filterMap (fun s =>
        if (pyStrip s).isEmpty then Option.none
        else Option.some (pyUpper (pyStrip s))) := by
  induction h with
  | nil => rfl
  | @cons g g2 gs gs2 hg hgs ih =>
    rw [List.filterMap_cons, List.filterMap_cons]
    have hst := caseEquiv_strip hg
    have hie := caseEquiv_isEmpty hst
    by_cases he : (pyStrip g).isEmpty = true
    · rw [he] at hie
      simp only [he, if_true, ← hie]
      exact ih
    · simp only [Bool.not_eq_true] at he
      rw [he] at hie
      simp only [he, ← hie, Bool.false_eq_true, if_false]
      rw [pyUpper_congr hst, ih]

/-- Claim C9: get_quote_history passes the uppercased symbol to the upstream
accessor, get_price_board passes a list of uppercased symbols (every element
is fixed by uppercasing), and two symbol parameters that differ only in
letter case produce the same upstream arguments for both handlers. -/
theorem c9_uppercase (s t : PyStr) (h : caseEquiv s t) :
    get_quote_history_symbol_arg s = pyUpper s
    ∧ get_quote_history_symbol_arg s = get_quote_history_symbol_arg t
    ∧ get_price_board_symbols_list s = get_price_board_symbols_list t
    ∧ ∀ x ∈ get_price_board_symbols_list s, pyUpper x = x := by
  refine ⟨rfl, pyUpper_congr h, price_board_congr (pySplit_forall₂ h), ?_⟩
  intro x hx
  rcases List.mem_filterMap.1 hx with ⟨a, ha, hfa⟩
  by_cases he : (pyStrip a).isEmpty = true
  · simp [he] at hfa
  · simp only [Bool.not_eq_true] at he
    simp only [he, Bool.false_eq_true, if_false, Option.some.injEq] at hfa
    rw [← hfa]
    exact pyUpper_idem (pyStrip a)

/-- Witness for claim C9 at the concrete strings acb and ACB (code points
97 99 98 and 65 67 66). -/
theorem c9_witness :
    caseEquiv [97, 99, 98] [65, 67, 66] ∧
      get_quote_history_symbol_arg [97, 99, 98]
        = get_quote_history_symbol_arg [65, 67, 66] := by
  have hce : caseEquiv [97, 99, 98] [65, 67, 66] :=
    .cons (by decide) (.cons (by decide) (.cons (by decide) .nil))
  exact ⟨hce, (c9_uppercase _ _ hce).2.1⟩

/-- Claim C10: running the DataFrame branch with the object of the caller
threaded through the alias-or-copy state leaves that object — its column
labels and its cell values — exactly as it was (the column rename happens
after `df = df.copy()` rebinds the local name), and the value produced equals
the pure embedding of `safe_convert_to_records` on the same frame. -/
theorem c10_no_mutation (caller : DFObj) (d : PyVal) :
    (dataframe_branch_state caller d).2 = caller
    ∧ (dataframe_branch_state caller d).1
        = safe_convert_to_records (.dataframe caller.cols caller.rows) d := by
  obtain ⟨cols, rows⟩ := caller
  cases cols <;>
    simp [dataframe_branch_state, safe_convert_to_records, derefDF, copyDF,
      set_columns, isMultiIndexCols, flatNames] <;>
    split_ifs <;> simp [flatNames]

end Vnstock
